import Mathlib

namespace Kiwi

/-! Shallow embedding of the wasm host bindings of the Kiwi repository:
`crates/wasm/src/server/unused.rs` and
`crates/wasm/src/client/implementation/specific.rs`, together with the
collaborating procedural-resource storage and message channel described by
the specification. Machine integers (u32 handles, ids, byte payloads) are
modelled as `Nat`; `f32` values are never computed with by the code under
study, so they are passed through opaquely as `Int`. -/

/-- Typed failure results a host call can produce, plus `trap` for a Rust
panic inside the host (a wasm trap), which is distinct from every returned
error value: a returned error is an `anyhow::Result::Err` handed back to the
guest, a trap aborts the call. -/
inductive HostErr where
  | unsupported
  | notFound
  | invalidArgument (msg : String)
  | preconditionMissing (msg : String)
  | trap (msg : String)
deriving DecidableEq

/-- Message target enum of `wit::client_message::Target`. -/
inductive Target where
  | serverUnreliable
  | serverReliable
  | localBroadcast
  | localTo (id : Nat)
deriving DecidableEq

/-- Modelled from the spec: `shared::implementation::unsupported` is not under
src/; per sections 4.1 and 7 it is the fixed Unsupported error result returned
for every capability operation not implemented for the module's role,
independent of all argument values. -/
def unsupported {α : Type} : Except HostErr α := Except.error HostErr.unsupported

/-- Server-role `wit::client_message::Host::send` (src/crates/wasm/src/server/unused.rs:
ignores every argument and calls `unsupported()`; it never touches the world,
which we model by threading an arbitrary world type through unchanged). -/
def server_message_send {W : Type} (_target : Target) (_name : String) (_data : List Nat)
    (w : W) : Except HostErr Unit × W :=
  (unsupported, w)

/-- Server-role `wit::client_player::Host::get_local` (unused.rs): `unsupported()`. -/
def server_player_get_local {W : Type} (w : W) : Except HostErr Nat × W :=
  (unsupported, w)

/-- Server-role `wit::client_input::Host::get` (unused.rs): `unsupported()`.
The wit `Input` payload type is irrelevant, so it is a type parameter. -/
def server_input_get (I : Type) {W : Type} (w : W) : Except HostErr I × W :=
  (unsupported, w)

/-- Server-role `wit::client_input::Host::get_previous` (unused.rs): `unsupported()`. -/
def server_input_get_previous (I : Type) {W : Type} (w : W) : Except HostErr I × W :=
  (unsupported, w)

/-- Server-role `wit::camera::Host::screen_ray` (unused.rs): `unsupported()`,
for every camera entity and clip-space position. -/
def server_camera_screen_ray (V R : Type) {W : Type} (_camera : Nat) (_clipSpacePos : V)
    (w : W) : Except HostErr R × W :=
  (unsupported, w)

/-! ## Message channel (client role), claim C6 -/

/-- One send request handed to the network collaborator. -/
structure NetMsg where
  conn : Nat
  moduleId : Nat
  name : String
  data : List Nat
deriving DecidableEq

/-- One locally routed message (broadcast when `target = none`). -/
structure LocalMsg where
  fromModule : Nat
  target : Option Nat
  name : String
  data : List Nat
deriving DecidableEq

/-- The world state the client-side `send` handler touches: the
`game_client()` resource (an `Option`, `none` when no connection is active)
and the outgoing message queues of the collaborating subsystems. -/
structure MsgWorld where
  gameClient : Option Nat
  reliableQueue : List NetMsg
  unreliableQueue : List NetMsg
  localQueue : List LocalMsg
deriving DecidableEq

/-- Modelled from the spec: `shared::implementation::message::send_networked`
is not under src/. Section 4.5 and 6: it enqueues exactly one send request on
the reliable or unreliable channel of the given connection, fire-and-forget,
and returns success. -/
def send_networked (w : MsgWorld) (conn moduleId : Nat) (name : String) (data : List Nat)
    (reliable : Bool) : Except HostErr Unit × MsgWorld :=
  if reliable then
    (Except.ok (), { w with reliableQueue := w.reliableQueue ++ [⟨conn, moduleId, name, data⟩] })
  else
    (Except.ok (), { w with unreliableQueue := w.unreliableQueue ++ [⟨conn, moduleId, name, data⟩] })

/-- Modelled from the spec: `shared::implementation::message::send_local` is
not under src/. Section 4.5: the channel enqueues the message (broadcast when
the target is `none`, directed otherwise) and returns success synchronously;
it does not consult the network connection. -/
def send_local (w : MsgWorld) (fromModule : Nat) (target : Option Nat) (name : String)
    (data : List Nat) : Except HostErr Unit × MsgWorld :=
  (Except.ok (), { w with localQueue := w.localQueue ++ [⟨fromModule, target, name, data⟩] })

/-- Client-role `wit::client_message::Host::send`
(src/crates/wasm/src/client/implementation/specific.rs, lines 40 to 74).
For the two server targets it fetches the `game_client()` resource and fails
with the "no game client" precondition error when the option is empty
(`.context("no game client")?`); otherwise it forwards to `send_networked`
with the reliable flag `matches!(target, Target::ServerReliable)`. The two
local targets go straight to `send_local`. -/
def client_message_send (moduleId : Nat) (target : Target) (name : String) (data : List Nat)
    (w : MsgWorld) : Except HostErr Unit × MsgWorld :=
  match target with
  | Target.serverUnreliable =>
    match w.gameClient with
    | none => (Except.error (HostErr.preconditionMissing "no game client"), w)
    | some conn => send_networked w conn moduleId name data false
  | Target.serverReliable =>
    match w.gameClient with
    | none => (Except.error (HostErr.preconditionMissing "no game client"), w)
    | some conn => send_networked w conn moduleId name data true
  | Target.localBroadcast => send_local w moduleId none name data
  | Target.localTo id => send_local w moduleId (some id) name data

/-! ## Procedural resource registry, claims C2 to C5

The registry itself (`ambient_procedurals::ProceduralStorage`) is not under
src/; its internals below are modelled from the spec. Section 3 and 4.4: an
arena of slots, a handle referencing one slot, lookups generation-checked
(kind mismatch or stale generation never resolves), create allocating a fresh
slot identity, destroy invalidating the handle. -/

/-- Opaque generation-checked resource handle (spec section 3). -/
structure Handle where
  index : Nat
  generation : Nat
deriving DecidableEq

/-- One arena slot: its current generation and its live value, `none` when free. -/
structure Slot (α : Type) where
  generation : Nat
  value : Option α
deriving DecidableEq

/-- Modelled from the spec: a generational arena of one resource kind. -/
structure Arena (α : Type) where
  slots : List (Slot α)
deriving DecidableEq

/-- Index of the first free slot, if any. -/
def findFreeIdx {α : Type} : List (Slot α) → Option Nat
  | [] => none
  | s :: rest => if s.value.isNone then some 0 else (findFreeIdx rest).map (· + 1)

/-- Modelled from the spec: `create` allocates a new arena slot (reusing a
free slot under its current, already bumped generation, else appending a new
slot) and returns a handle unique among live handles of that kind. -/
def Arena.insert {α : Type} (a : Arena α) (x : α) : Arena α × Handle :=
  match findFreeIdx a.slots with
  | some i =>
    match a.slots.get? i with
    | some sl => (⟨a.slots.set i ⟨sl.generation, some x⟩⟩, ⟨i, sl.generation⟩)
    | none => (⟨a.slots ++ [⟨0, some x⟩]⟩, ⟨a.slots.length, 0⟩)
  | none => (⟨a.slots ++ [⟨0, some x⟩]⟩, ⟨a.slots.length, 0⟩)

/-- Modelled from the spec: every lookup validates the handle's generation
against the slot before returning the backing object; a stale generation or
out-of-range index never resolves. -/
def Arena.lookup {α : Type} (a : Arena α) (h : Handle) : Option α :=
  match a.slots.get? h.index with
  | some sl => if sl.generation = h.generation then sl.value else none
  | none => none

/-- Modelled from the spec: `destroy` removes the registry's reference and
bumps the slot generation so the destroyed handle can never resolve again;
destroying an invalid handle changes nothing. -/
def Arena.remove {α : Type} (a : Arena α) (h : Handle) : Arena α :=
  match a.lookup h with
  | some _ => ⟨a.slots.set h.index ⟨h.generation + 1, none⟩⟩
  | none => a

/-- A create or destroy request against one arena, used to state what stale
handles can observe under any later operation sequence. -/
inductive ArenaOp (α : Type) where
  | create (x : α)
  | destroy (h : Handle)

/-- Run one operation, returning the handle a create hands out. -/
def Arena.applyOp {α : Type} (a : Arena α) : ArenaOp α → Arena α × Option Handle
  | ArenaOp.create x => ((a.insert x).1, some (a.insert x).2)
  | ArenaOp.destroy h => (a.remove h, none)

/-- Run a sequence of operations, collecting every handle handed out. -/
def Arena.applyOps {α : Type} (a : Arena α) : List (ArenaOp α) → Arena α × List Handle
  | [] => (a, [])
  | op :: ops =>
    (((a.applyOp op).1.applyOps ops).1,
      (a.applyOp op).2.toList ++ ((a.applyOp op).1.applyOps ops).2)

/-- The handle points at an existing slot whose generation has moved past it:
the state of a destroyed handle, which no lookup can resolve again. -/
def Handle.staleIn {α : Type} (h : Handle) (a : Arena α) : Prop :=
  ∃ sl, a.slots.get? h.index = some sl ∧ h.generation < sl.generation

/-! ## Guest-facing enumerations and their backend mapping, claim C9
Transcribed from `wit::client_texture::Host::create2d` (specific.rs lines 314
to 389) and `wit::client_sampler::Host::create` (lines 398 to 430). -/

/-- wit `client-texture` pixel format enum, all 42 values. -/
inductive Format where
  | r8Unorm | r8Snorm | r8Uint | r8Sint
  | r16Uint | r16Sint | r16Unorm | r16Snorm | r16Float
  | rg8Unorm | rg8Snorm | rg8Uint | rg8Sint
  | r32Uint | r32Sint | r32Float
  | rg16Uint | rg16Sint | rg16Unorm | rg16Snorm | rg16Float
  | rgba8Unorm | rgba8UnormSrgb | rgba8Snorm | rgba8Uint | rgba8Sint
  | bgra8Unorm | bgra8UnormSrgb
  | rgb9e5Ufloat | rgb10a2Unorm | rg11b10Float
  | rg32Uint | rg32Sint | rg32Float
  | rgba16Uint | rgba16Sint | rgba16Unorm | rgba16Snorm | rgba16Float
  | rgba32Uint | rgba32Sint | rgba32Float
deriving DecidableEq

/-- Rendering-backend (`wgpu::TextureFormat`) values the host maps onto. -/
inductive WgpuTextureFormat where
  | r8Unorm | r8Snorm | r8Uint | r8Sint
  | r16Uint | r16Sint | r16Unorm | r16Snorm | r16Float
  | rg8Unorm | rg8Snorm | rg8Uint | rg8Sint
  | r32Uint | r32Sint | r32Float
  | rg16Uint | rg16Sint | rg16Unorm | rg16Snorm | rg16Float
  | rgba8Unorm | rgba8UnormSrgb | rgba8Snorm | rgba8Uint | rgba8Sint
  | bgra8Unorm | bgra8UnormSrgb
  | rgb9e5Ufloat | rgb10a2Unorm | rg11b10Float
  | rg32Uint | rg32Sint | rg32Float
  | rgba16Uint | rgba16Sint | rgba16Unorm | rgba16Snorm | rgba16Float
  | rgba32Uint | rgba32Sint | rgba32Float
deriving DecidableEq

/-- The format match of `create2d` (specific.rs lines 319 to 362): every wit
format value is translated to its wgpu value; the match is exhaustive, there
is no fallback arm. -/
def format_from_wit : Format → WgpuTextureFormat
  | Format.r8Unorm => WgpuTextureFormat.r8Unorm
  | Format.r8Snorm => WgpuTextureFormat.r8Snorm
  | Format.r8Uint => WgpuTextureFormat.r8Uint
  | Format.r8Sint => WgpuTextureFormat.r8Sint
  | Format.r16Uint => WgpuTextureFormat.r16Uint
  | Format.r16Sint => WgpuTextureFormat.r16Sint
  | Format.r16Unorm => WgpuTextureFormat.r16Unorm
  | Format.r16Snorm => WgpuTextureFormat.r16Snorm
  | Format.r16Float => WgpuTextureFormat.r16Float
  | Format.rg8Unorm => WgpuTextureFormat.rg8Unorm
  | Format.rg8Snorm => WgpuTextureFormat.rg8Snorm
  | Format.rg8Uint => WgpuTextureFormat.rg8Uint
  | Format.rg8Sint => WgpuTextureFormat.rg8Sint
  | Format.r32Uint => WgpuTextureFormat.r32Uint
  | Format.r32Sint => WgpuTextureFormat.r32Sint
  | Format.r32Float => WgpuTextureFormat.r32Float
  | Format.rg16Uint => WgpuTextureFormat.rg16Uint
  | Format.rg16Sint => WgpuTextureFormat.rg16Sint
  | Format.rg16Unorm => WgpuTextureFormat.rg16Unorm
  | Format.rg16Snorm => WgpuTextureFormat.rg16Snorm
  | Format.rg16Float => WgpuTextureFormat.rg16Float
  | Format.rgba8Unorm => WgpuTextureFormat.rgba8Unorm
  | Format.rgba8UnormSrgb => WgpuTextureFormat.rgba8UnormSrgb
  | Format.rgba8Snorm => WgpuTextureFormat.rgba8Snorm
  | Format.rgba8Uint => WgpuTextureFormat.rgba8Uint
  | Format.rgba8Sint => WgpuTextureFormat.rgba8Sint
  | Format.bgra8Unorm => WgpuTextureFormat.bgra8Unorm
  | Format.bgra8UnormSrgb => WgpuTextureFormat.bgra8UnormSrgb
  | Format.rgb9e5Ufloat => WgpuTextureFormat.rgb9e5Ufloat
  | Format.rgb10a2Unorm => WgpuTextureFormat.rgb10a2Unorm
  | Format.rg11b10Float => WgpuTextureFormat.rg11b10Float
  | Format.rg32Uint => WgpuTextureFormat.rg32Uint
  | Format.rg32Sint => WgpuTextureFormat.rg32Sint
  | Format.rg32Float => WgpuTextureFormat.rg32Float
  | Format.rgba16Uint => WgpuTextureFormat.rgba16Uint
  | Format.rgba16Sint => WgpuTextureFormat.rgba16Sint
  | Format.rgba16Unorm => WgpuTextureFormat.rgba16Unorm
  | Format.rgba16Snorm => WgpuTextureFormat.rgba16Snorm
  | Format.rgba16Float => WgpuTextureFormat.rgba16Float
  | Format.rgba32Uint => WgpuTextureFormat.rgba32Uint
  | Format.rgba32Sint => WgpuTextureFormat.rgba32Sint
  | Format.rgba32Float => WgpuTextureFormat.rgba32Float

/-- wit `client-sampler` address mode enum. -/
inductive AddressMode where
  | clampToEdge | repeat | mirrorRepeat
deriving DecidableEq

/-- Backend (`wgpu::AddressMode`) values. -/
inductive WgpuAddressMode where
  | clampToEdge | repeat | mirrorRepeat
deriving DecidableEq

/-- wit `client-sampler` filter mode enum. -/
inductive FilterMode where
  | nearest | linear
deriving DecidableEq

/-- Backend (`wgpu::FilterMode`) values. -/
inductive WgpuFilterMode where
  | nearest | linear
deriving DecidableEq

/-- `address_mode_from_wit` closure of sampler `create` (specific.rs lines 402
to 408): exhaustive translation. -/
def address_mode_from_wit : AddressMode → WgpuAddressMode
  | AddressMode.clampToEdge => WgpuAddressMode.clampToEdge
  | AddressMode.repeat => WgpuAddressMode.repeat
  | AddressMode.mirrorRepeat => WgpuAddressMode.mirrorRepeat

/-- `filter_mode_from_wit` closure of sampler `create` (specific.rs lines 409
to 412): exhaustive translation. -/
def filter_mode_from_wit : FilterMode → WgpuFilterMode
  | FilterMode.nearest => WgpuFilterMode.nearest
  | FilterMode.linear => WgpuFilterMode.linear

/-! ## Storage-backed resource operations, claims C2 to C5 and C9 -/

/-- wit texture 2d descriptor (width, height, format, pixel data bytes). -/
structure TextureDescriptor2d where
  width : Nat
  height : Nat
  format : Format
  data : List Nat
deriving DecidableEq

/-- The `wgpu::TextureDescriptor` the host builds in `create2d` (specific.rs
lines 368 to 381), with its fixed fields. -/
structure WgpuTextureDescriptor where
  width : Nat
  height : Nat
  depthOrArrayLayers : Nat
  mipLevelCount : Nat
  sampleCount : Nat
  format : WgpuTextureFormat
deriving DecidableEq

/-- wit sampler descriptor. -/
structure SamplerDescriptor where
  addressModeU : AddressMode
  addressModeV : AddressMode
  addressModeW : AddressMode
  magFilter : FilterMode
  minFilter : FilterMode
  mipmapFilter : FilterMode
deriving DecidableEq

/-- The `wgpu::SamplerDescriptor` the host builds (specific.rs lines 417 to
425). -/
structure WgpuSamplerDescriptor where
  addressModeU : WgpuAddressMode
  addressModeV : WgpuAddressMode
  addressModeW : WgpuAddressMode
  magFilter : WgpuFilterMode
  minFilter : WgpuFilterMode
  mipmapFilter : WgpuFilterMode
deriving DecidableEq

/-- A built procedural mesh, carrying the `MeshBuilder` fields the host fills
in (specific.rs lines 291 to 299); `f32` coordinates are opaque `Int`s. -/
structure Mesh where
  positions : List (Int × Int × Int)
  normals : List (Int × Int × Int)
  tangents : List (Int × Int × Int)
  texcoords : List (List (Int × Int))
  indices : List Nat
deriving DecidableEq

/-- One wit mesh vertex (position, normal, tangent, texcoord0). -/
structure Vertex where
  position : Int × Int × Int
  normal : Int × Int × Int
  tangent : Int × Int × Int
  texcoord0 : Int × Int
deriving DecidableEq

/-- wit mesh descriptor: vertices plus triangle indices. -/
structure MeshDescriptor where
  vertices : List Vertex
  indices : List Nat
deriving DecidableEq

/-- The input `mesh_create` hands to the collaborating `MeshBuilder` after
splitting the vertex array into component arrays (specific.rs lines 281 to
298): positions, normals, tangents, `vec![texcoords]`, indices. -/
structure MeshBuilderInput where
  positions : List (Int × Int × Int)
  normals : List (Int × Int × Int)
  tangents : List (Int × Int × Int)
  texcoords : List (List (Int × Int))
  indices : List Nat
deriving DecidableEq

/-- Splitting loop of `client_mesh::Host::create` (specific.rs lines 281 to
290): one pass collecting each vertex component, then `texcoords` wrapped in a
singleton list. -/
def meshInputOf (desc : MeshDescriptor) : MeshBuilderInput :=
  { positions := desc.vertices.map (·.position)
    normals := desc.vertices.map (·.normal)
    tangents := desc.vertices.map (·.tangent)
    texcoords := [desc.vertices.map (·.texcoord0)]
    indices := desc.indices }

/-- A procedural material as stored by the registry: per specific.rs lines 456
to 461 it holds shared (`Arc::clone`) references to the three texture objects
and the sampler object it was built from, here the object identities. -/
structure Material where
  baseColor : Nat
  normalMap : Nat
  metallicRoughness : Nat
  sampler : Nat
deriving DecidableEq

/-- wit material descriptor: the dependency handles. -/
structure MaterialDescriptor where
  baseColorMap : Handle
  normalMap : Handle
  metallicRoughnessMap : Handle
  sampler : Handle
deriving DecidableEq

/-- Modelled from the spec: the `procedural_storage()` world resource
(`ambient_procedurals`, not under src/): one generational arena per resource
kind. Texture and sampler arenas store the identity of the underlying
reference-counted GPU object; `nextObj` mints fresh object identities;
`gpuTextures` and `gpuSamplers` record the backend descriptor each created
object was built with. -/
structure Storage where
  meshes : Arena Mesh
  textures : Arena Nat
  samplers : Arena Nat
  materials : Arena Material
  nextObj : Nat
  gpuTextures : List (Nat × WgpuTextureDescriptor)
  gpuSamplers : List (Nat × WgpuSamplerDescriptor)
deriving DecidableEq

/-- The storage with no resources. -/
def emptyStorage : Storage :=
  ⟨⟨[]⟩, ⟨[]⟩, ⟨[]⟩, ⟨[]⟩, 0, [], []⟩

/-- `wit::client_mesh::Host::create` (specific.rs lines 276 to 305): split the
vertices, run the collaborating builder (`MeshBuilder::build`, not under src/,
hence a parameter) with `?` so a build failure returns immediately, then and
only then insert the built mesh into the procedural storage. -/
def mesh_create (build : MeshBuilderInput → Except HostErr Mesh) (s : Storage)
    (desc : MeshDescriptor) : Except HostErr Handle × Storage :=
  match build (meshInputOf desc) with
  | Except.error e => (Except.error e, s)
  | Except.ok mesh =>
    (Except.ok (s.meshes.insert mesh).2, { s with meshes := (s.meshes.insert mesh).1 })

/-- `wit::client_mesh::Host::destroy` (specific.rs lines 306 to 311). -/
def mesh_destroy (s : Storage) (h : Handle) : Except HostErr Unit × Storage :=
  (Except.ok (), { s with meshes := s.meshes.remove h })

/-- `wit::client_texture::Host::create2d` (specific.rs lines 314 to 389): map
the format, build the backend texture descriptor with its fixed fields, create
the GPU texture and its view (a fresh reference-counted object), insert the
view into the storage. Creation is infallible for every descriptor. -/
def texture_create2d (s : Storage) (desc : TextureDescriptor2d) :
    Except HostErr Handle × Storage :=
  let format := format_from_wit desc.format
  let gpuDesc : WgpuTextureDescriptor :=
    { width := desc.width, height := desc.height, depthOrArrayLayers := 1
      mipLevelCount := 1, sampleCount := 1, format := format }
  let obj := s.nextObj
  (Except.ok (s.textures.insert obj).2,
    { s with textures := (s.textures.insert obj).1, nextObj := s.nextObj + 1
             gpuTextures := s.gpuTextures ++ [(obj, gpuDesc)] })

/-- `wit::client_texture::Host::destroy` (specific.rs lines 390 to 395):
`storage.remove_texture(handle)` then `Ok(())`. -/
def texture_destroy (s : Storage) (h : Handle) : Except HostErr Unit × Storage :=
  (Except.ok (), { s with textures := s.textures.remove h })

/-- `wit::client_sampler::Host::create` (specific.rs lines 398 to 430): map
the six mode fields, create the backend sampler (a fresh reference-counted
object), insert it. Creation is infallible for every descriptor. -/
def sampler_create (s : Storage) (desc : SamplerDescriptor) :
    Except HostErr Handle × Storage :=
  let gpuDesc : WgpuSamplerDescriptor :=
    { addressModeU := address_mode_from_wit desc.addressModeU
      addressModeV := address_mode_from_wit desc.addressModeV
      addressModeW := address_mode_from_wit desc.addressModeW
      magFilter := filter_mode_from_wit desc.magFilter
      minFilter := filter_mode_from_wit desc.minFilter
      mipmapFilter := filter_mode_from_wit desc.mipmapFilter }
  let obj := s.nextObj
  (Except.ok (s.samplers.insert obj).2,
    { s with samplers := (s.samplers.insert obj).1, nextObj := s.nextObj + 1
             gpuSamplers := s.gpuSamplers ++ [(obj, gpuDesc)] })

/-- `wit::client_sampler::Host::destroy` (specific.rs lines 431 to 436). -/
def sampler_destroy (s : Storage) (h : Handle) : Except HostErr Unit × Storage :=
  (Except.ok (), { s with samplers := s.samplers.remove h })

/-- `wit::client_material::Host::create` (specific.rs lines 438 to 468): the
dependency handles are dereferenced at creation time with
`Arc::clone(storage.get_texture(..))` and `Arc::clone(storage.get_sampler(..))`.
Those calls appear with no error propagation (`?`) and their result feeds
`Arc::clone` directly, so a failed generation-checked lookup cannot surface as
a returned error value: it is a panic inside the host, a wasm trap, modelled
as `HostErr.trap`. When every lookup succeeds, the material holding the four
shared object references is inserted after all lookups. -/
def material_create (s : Storage) (desc : MaterialDescriptor) :
    Except HostErr Handle × Storage :=
  match s.textures.lookup desc.baseColorMap, s.textures.lookup desc.normalMap,
      s.textures.lookup desc.metallicRoughnessMap, s.samplers.lookup desc.sampler with
  | some bc, some nm, some mr, some sp =>
    (Except.ok (s.materials.insert ⟨bc, nm, mr, sp⟩).2,
      { s with materials := (s.materials.insert ⟨bc, nm, mr, sp⟩).1 })
  | _, _, _, _ => (Except.error (HostErr.trap "invalid handle"), s)

/-- `wit::client_material::Host::destroy` (specific.rs lines 469 to 474):
`storage.remove_material(handle)` then `Ok(())`; dropping the material drops
its shared references, the texture and sampler arenas are untouched. -/
def material_destroy (s : Storage) (h : Handle) : Except HostErr Unit × Storage :=
  (Except.ok (), { s with materials := s.materials.remove h })

/-! ## Reference counts of shared sub-resources, claim C4 -/

/-- Contribution of one slot to an arena-wide sum: free slots contribute 0. -/
def slotContrib {α : Type} (f : α → Nat) (sl : Slot α) : Nat :=
  match sl.value with
  | some x => f x
  | none => 0

/-- Sum of a per-value weight over the live slots of an arena. -/
def arenaSum {α : Type} (a : Arena α) (f : α → Nat) : Nat :=
  (a.slots.map (slotContrib f)).sum

/-- How many shared texture references a material holds on object `o`. -/
def texRefsOfMaterial (m : Material) (o : Nat) : Nat :=
  (if m.baseColor = o then 1 else 0) + (if m.normalMap = o then 1 else 0) +
    (if m.metallicRoughness = o then 1 else 0)

/-- Strong reference count of texture object `o`: one per live texture-arena
slot holding it plus one per shared reference held by a live material. The
object is released exactly when this count reaches 0. -/
def Storage.textureStrongCount (s : Storage) (o : Nat) : Nat :=
  arenaSum s.textures (fun v => if v = o then 1 else 0) +
    arenaSum s.materials (fun m => texRefsOfMaterial m o)

/-- Strong reference count of sampler object `p`. -/
def Storage.samplerStrongCount (s : Storage) (p : Nat) : Nat :=
  arenaSum s.samplers (fun v => if v = p then 1 else 0) +
    arenaSum s.materials (fun m => if m.sampler = p then 1 else 0)

/-! ## Audio host functions and the deferred execution bridge, claims C7, C8 -/

/-- Messages the audio collaborator receives over the `audio_sender()` channel
(`ambient_world_audio::AudioMessage`). -/
inductive AudioMessage where
  | track (trackObj : Nat) (looping : Bool) (volume : Int) (url : String) (uid : Nat)
  | stop (url : String)
  | updateVolume (url : String) (volume : Int)
  | stopById (uid : Nat)
deriving DecidableEq

/-- The world state the deferred audio callbacks touch: the audio message
channel, plus the host log (`log::error!`). -/
structure AudioWorld where
  audioQueue : List AudioMessage
  log : List String
deriving DecidableEq

/-- One step of a spawned asynchronous task. `compute` is world-free work
(awaiting a download or decode); `asyncRun` hands a closure to the deferred
bridge (`async_run.run`), to be applied to the world only at the next
synchronization point; `direct` is what the spec forbids, an immediate world
access from inside the task. -/
inductive FutureStep where
  | compute
  | asyncRun (cb : AudioWorld → AudioWorld)
  | direct (f : AudioWorld → AudioWorld)

/-- Run the steps of a spawned task: `compute` touches nothing, `asyncRun`
only appends its callback to the deferred queue, `direct` mutates the world
immediately. -/
def runSteps : List FutureStep → AudioWorld → List (AudioWorld → AudioWorld) →
    AudioWorld × List (AudioWorld → AudioWorld)
  | [], w, q => (w, q)
  | FutureStep.compute :: rest, w, q => runSteps rest w q
  | FutureStep.asyncRun cb :: rest, w, q => runSteps rest w (q ++ [cb])
  | FutureStep.direct f :: rest, w, q => runSteps rest (f w) q

/-- Drain the deferred-callback queue at a synchronization point, FIFO. -/
def drainCallbacks (w : AudioWorld) (q : List (AudioWorld → AudioWorld)) : AudioWorld :=
  q.foldl (fun w1 cb => cb w1) w

/-- The spawned task of `client_audio::Host::play` (specific.rs lines 205 to
218), as a function of the eventual track-load outcome: one await of the
download/decode (`compute`), then one `async_run.run` whose closure sends the
track message on success and logs the error on failure. -/
def playFuture (looping : Bool) (volume : Int) (uid : Nat) (durl : String)
    (outcome : Except String Nat) : List FutureStep :=
  [FutureStep.compute,
    FutureStep.asyncRun (fun world =>
      match outcome with
      | Except.ok track =>
        { world with audioQueue := world.audioQueue ++ [AudioMessage.track track looping volume durl uid] }
      | Except.error e => { world with log := world.log ++ [e] })]

/-- `wit::client_audio::Host::play` (specific.rs lines 199 to 220).
`AbsAssetUrl::parse(url)?.to_download_url(&assets)?` is the collaborating
asset system (not under src/), passed as the `parseResolve` parameter; either
failure returns synchronously. On success the call spawns the loading task
and immediately returns `Ok(())`: the returned triple is the synchronous
result, the world as the call leaves it, and the spawned task (if any). -/
def audio_play (parseResolve : String → Except String String) (url : String) (looping : Bool)
    (volume : Int) (uid : Nat) (w : AudioWorld) :
    Except HostErr Unit × AudioWorld × Option (Except String Nat → List FutureStep) :=
  match parseResolve url with
  | Except.error e => (Except.error (HostErr.invalidArgument e), w, none)
  | Except.ok durl => (Except.ok (), w, some (playFuture looping volume uid durl))

/-- The spawned task of `client_audio::Host::stop` (specific.rs lines 228 to
233): a single `async_run.run` sending the stop message. -/
def stopFuture (durl : String) : List FutureStep :=
  [FutureStep.asyncRun (fun world =>
    { world with audioQueue := world.audioQueue ++ [AudioMessage.stop durl] })]

/-- `wit::client_audio::Host::stop` (specific.rs lines 222 to 235). -/
def audio_stop (parseResolve : String → Except String String) (url : String) (w : AudioWorld) :
    Except HostErr Unit × AudioWorld × Option (List FutureStep) :=
  match parseResolve url with
  | Except.error e => (Except.error (HostErr.invalidArgument e), w, none)
  | Except.ok durl => (Except.ok (), w, some (stopFuture durl))

/-- The spawned task of `client_audio::Host::set_volume` (specific.rs lines
243 to 250). -/
def setVolumeFuture (durl : String) (volume : Int) : List FutureStep :=
  [FutureStep.asyncRun (fun world =>
    { world with audioQueue := world.audioQueue ++ [AudioMessage.updateVolume durl volume] })]

/-- `wit::client_audio::Host::set_volume` (specific.rs lines 237 to 252). -/
def audio_set_volume (parseResolve : String → Except String String) (url : String)
    (volume : Int) (w : AudioWorld) :
    Except HostErr Unit × AudioWorld × Option (List FutureStep) :=
  match parseResolve url with
  | Except.error e => (Except.error (HostErr.invalidArgument e), w, none)
  | Except.ok durl => (Except.ok (), w, some (setVolumeFuture durl volume))

/-- The spawned task of `client_audio::Host::stop_by_id` (specific.rs lines
258 to 263). -/
def stopByIdFuture (uid : Nat) : List FutureStep :=
  [FutureStep.asyncRun (fun world =>
    { world with audioQueue := world.audioQueue ++ [AudioMessage.stopById uid] })]

/-- `wit::client_audio::Host::stop_by_id` (specific.rs lines 254 to 265): no
URL to parse, always accepted. -/
def audio_stop_by_id (uid : Nat) (w : AudioWorld) :
    Except HostErr Unit × AudioWorld × Option (List FutureStep) :=
  (Except.ok (), w, some (stopByIdFuture uid))

/-- The spawned task leaves the world untouched while it runs: executing its
steps from any world changes nothing, all effects sit in the deferred queue. -/
def spawnedWorldUntouched (fut : Option (List FutureStep)) : Prop :=
  ∀ v : AudioWorld, match fut with
  | none => True
  | some steps => (runSteps steps v []).1 = v

/-- As `spawnedWorldUntouched`, for a task awaiting a load outcome. -/
def spawnedWorldUntouchedLoad (fut : Option (Except String Nat → List FutureStep)) : Prop :=
  ∀ (o : Except String Nat) (v : AudioWorld), match fut with
  | none => True
  | some f => (runSteps (f o) v []).1 = v

/-- End-to-end pipeline of one `play` call: the synchronous host call, then
(when a task was spawned) the task running to completion with load outcome
`o`, then the deferred-callback drain at the next synchronization point.
Returns the synchronous result paired with the final world. -/
def play_pipeline (parseResolve : String → Except String String) (url : String)
    (looping : Bool) (volume : Int) (uid : Nat) (w : AudioWorld) (o : Except String Nat) :
    Except HostErr Unit × AudioWorld :=
  match (audio_play parseResolve url looping volume uid w).2.2 with
  | none =>
    ((audio_play parseResolve url looping volume uid w).1,
      (audio_play parseResolve url looping volume uid w).2.1)
  | some f =>
    ((audio_play parseResolve url looping volume uid w).1,
      drainCallbacks
        (runSteps (f o) (audio_play parseResolve url looping volume uid w).2.1 []).1
        (runSteps (f o) (audio_play parseResolve url looping volume uid w).2.1 []).2)

/-! ## Camera host functions, claim C10

`clip_space_ray` (ambient_core::camera) and `screen_to_clip_space`
(ambient_core::window) are external collaborators, passed as parameters; the
world, vector and error types are parameters as well since the host code only
plumbs them. The wit/glam `from_bindgen`/`into_bindgen` conversions on `Vec2`
and `Ray` copy `f32` fields verbatim, so the roundtrip the composed path
inserts is the identity and is elided. -/

/-- A camera ray: origin and direction. -/
structure Ray (V3 : Type) where
  origin : V3
  dir : V3

/-- `wit::client_camera::Host::clip_space_ray` (specific.rs lines 139 to 151):
call the collaborator, propagate its error, negate the ray direction
(`ray.dir *= -1.`), return. -/
def host_clip_space_ray (W V2 V3 E : Type) (csr : W → Nat → V2 → Except E (Ray V3))
    (negDir : V3 → V3) (w : W) (camera : Nat) (clipSpacePos : V2) : Except E (Ray V3) :=
  match csr w camera clipSpacePos with
  | Except.error e => Except.error e
  | Except.ok ray => Except.ok ⟨ray.origin, negDir ray.dir⟩

/-- `wit::client_camera::Host::screen_to_clip_space` (specific.rs lines 153 to
161): delegate to the window collaborator. -/
def host_screen_to_clip_space (W V2 : Type) (s2c : W → V2 → V2) (w : W) (screenPos : V2) : V2 :=
  s2c w screenPos

/-- `wit::client_camera::Host::screen_to_world_direction` (specific.rs lines
163 to 173): convert the screen position to clip space, call the clip-space
ray collaborator on the same world, propagate its error, negate the ray
direction, return. -/
def host_screen_to_world_direction (W V2 V3 E : Type)
    (csr : W → Nat → V2 → Except E (Ray V3)) (s2c : W → V2 → V2) (negDir : V3 → V3)
    (w : W) (camera : Nat) (screenPos : V2) : Except E (Ray V3) :=
  let clipSpace := s2c w screenPos
  match csr w camera clipSpace with
  | Except.error e => Except.error e
  | Except.ok ray => Except.ok ⟨ray.origin, negDir ray.dir⟩

/-! ## List helper lemmas -/

theorem list_get?_set_self {α : Type} (l : List α) (i : Nat) (x : α) (h : i < l.length) :
    (l.set i x).get? i = some x := by
  induction l generalizing i with
  | nil => simp at h
  | cons a t ih =>
    cases i with
    | zero => rfl
    | succ n => simpa using ih n (by simpa using h)

theorem list_get?_set_ne {α : Type} (l : List α) (i j : Nat) (x : α) (h : i ≠ j) :
    (l.set i x).get? j = l.get? j := by
  induction l generalizing i j with
  | nil => rfl
  | cons a t ih =>
    cases i with
    | zero =>
      cases j with
      | zero => exact absurd rfl h
      | succ m => rfl
    | succ n =>
      cases j with
      | zero => rfl
      | succ m => simpa using ih n m (fun hh => h (by rw [hh]))

theorem list_get?_append_lt {α : Type} (l m : List α) (i : Nat) (h : i < l.length) :
    (l ++ m).get? i = l.get? i := by
  induction l generalizing i with
  | nil => simp at h
  | cons a t ih =>
    cases i with
    | zero => rfl
    | succ n => simpa using ih n (by simpa using h)

theorem list_get?_lt {α : Type} (l : List α) (i : Nat) (x : α) (h : l.get? i = some x) :
    i < l.length := by
  induction l generalizing i with
  | nil => simp [List.get?] at h
  | cons a t ih =>
    cases i with
    | zero => simp
    | succ n => simpa using ih n (by simpa using h)

theorem list_get?_ge {α : Type} (l : List α) (i : Nat) (h : l.length ≤ i) :
    l.get? i = none := by
  induction l generalizing i with
  | nil => rfl
  | cons a t ih =>
    cases i with
    | zero => simp at h
    | succ n => simpa using ih n (by simpa using h)

theorem list_get?_append_self {α : Type} (l : List α) (x : α) :
    (l ++ [x]).get? l.length = some x := by
  induction l with
  | nil => rfl
  | cons a t ih => exact ih

theorem list_map_sum_set {α : Type} (l : List α) (i : Nat) (x y : α) (g : α → Nat)
    (h : l.get? i = some y) :
    ((l.set i x).map g).sum + g y = (l.map g).sum + g x := by
  induction l generalizing i with
  | nil => simp [List.get?] at h
  | cons a t ih =>
    cases i with
    | zero =>
      have ha : a = y := by simpa [List.get?] using h
      subst ha
      simp only [List.set, List.map, List.sum_cons]
      omega
    | succ n =>
      have ih2 := ih n (by simpa using h)
      simp only [List.set, List.map, List.sum_cons]
      omega

/-! ## Arena lemmas -/

theorem findFreeIdx_spec {α : Type} (l : List (Slot α)) (i : Nat)
    (h : findFreeIdx l = some i) : ∃ sl, l.get? i = some sl ∧ sl.value = none := by
  induction l generalizing i with
  | nil => simp [findFreeIdx] at h
  | cons s t ih =>
    cases hsv : s.value with
    | none =>
      simp [findFreeIdx, hsv] at h
      obtain rfl : i = 0 := by omega
      exact ⟨s, rfl, hsv⟩
    | some y =>
      simp only [findFreeIdx, hsv] at h
      cases hft : findFreeIdx t with
      | none => rw [hft] at h; simp at h
      | some j =>
        rw [hft] at h
        have hij : j + 1 = i := by simpa using h
        obtain ⟨sl, hsl, hval⟩ := ih j hft
        refine ⟨sl, ?_, hval⟩
        rw [← hij]
        simpa using hsl

theorem Arena.insert_eq_free {α : Type} (a : Arena α) (x : α) (i : Nat) (sl : Slot α)
    (hf : findFreeIdx a.slots = some i) (hsl : a.slots.get? i = some sl) :
    a.insert x = (⟨a.slots.set i ⟨sl.generation, some x⟩⟩, ⟨i, sl.generation⟩) := by
  simp only [Arena.insert, hf, hsl]

theorem Arena.insert_eq_append {α : Type} (a : Arena α) (x : α)
    (hf : findFreeIdx a.slots = none) :
    a.insert x = (⟨a.slots ++ [⟨0, some x⟩]⟩, ⟨a.slots.length, 0⟩) := by
  simp only [Arena.insert, hf]

theorem Arena.lookup_eq {α : Type} (a : Arena α) (h : Handle) (sl : Slot α)
    (hg : a.slots.get? h.index = some sl) :
    a.lookup h = if sl.generation = h.generation then sl.value else none := by
  simp only [Arena.lookup, hg]

theorem Arena.lookup_eq_none_oob {α : Type} (a : Arena α) (h : Handle)
    (hg : a.slots.get? h.index = none) : a.lookup h = none := by
  simp only [Arena.lookup, hg]

theorem Arena.remove_eq_live {α : Type} (a : Arena α) (h : Handle) (x : α)
    (hl : a.lookup h = some x) :
    a.remove h = ⟨a.slots.set h.index ⟨h.generation + 1, none⟩⟩ := by
  simp only [Arena.remove, hl]

theorem Arena.remove_eq_dead {α : Type} (a : Arena α) (h : Handle)
    (hl : a.lookup h = none) : a.remove h = a := by
  simp only [Arena.remove, hl]

theorem Arena.lookup_spec {α : Type} (a : Arena α) (h : Handle) (x : α)
    (hl : a.lookup h = some x) :
    ∃ sl, a.slots.get? h.index = some sl ∧ sl.generation = h.generation ∧
      sl.value = some x := by
  cases hg : a.slots.get? h.index with
  | none => rw [a.lookup_eq_none_oob h hg] at hl; exact absurd hl (by simp)
  | some sl =>
    rw [a.lookup_eq h sl hg] at hl
    by_cases he : sl.generation = h.generation
    · rw [if_pos he] at hl; exact ⟨sl, rfl, he, hl⟩
    · rw [if_neg he] at hl; exact absurd hl (by simp)

theorem Arena.lookup_insert_self_pre {α : Type} (a : Arena α) (x : α) :
    a.lookup (a.insert x).2 = none := by
  cases hf : findFreeIdx a.slots with
  | none =>
    rw [a.insert_eq_append x hf]
    exact a.lookup_eq_none_oob _ (list_get?_ge _ _ (le_refl _))
  | some i =>
    obtain ⟨sl, hsl, hval⟩ := findFreeIdx_spec a.slots i hf
    rw [a.insert_eq_free x i sl hf hsl]
    rw [a.lookup_eq _ sl hsl]
    simp [hval]

theorem Arena.lookup_insert_self_post {α : Type} (a : Arena α) (x : α) :
    (a.insert x).1.lookup (a.insert x).2 = some x := by
  cases hf : findFreeIdx a.slots with
  | none =>
    rw [a.insert_eq_append x hf]
    exact Arena.lookup_eq _ _ _ (list_get?_append_self _ _) |>.trans (by simp)
  | some i =>
    obtain ⟨sl, hsl, hval⟩ := findFreeIdx_spec a.slots i hf
    rw [a.insert_eq_free x i sl hf hsl]
    refine (Arena.lookup_eq _ _ ⟨sl.generation, some x⟩ ?_).trans (by simp)
    exact list_get?_set_self _ _ _ (list_get?_lt _ _ _ hsl)

theorem Arena.lookup_insert_ne {α : Type} (a : Arena α) (x : α) (h : Handle)
    (hne : h ≠ (a.insert x).2) : (a.insert x).1.lookup h = a.lookup h := by
  cases hf : findFreeIdx a.slots with
  | none =>
    rw [a.insert_eq_append x hf] at hne ⊢
    rcases Nat.lt_trichotomy h.index a.slots.length with hlt | heq | hgt
    · simp only [Arena.lookup]
      rw [list_get?_append_lt _ _ _ hlt]
    · have hg0 : ¬((0 : Nat) = h.generation) := by
        intro h0
        apply hne
        cases h
        simp_all
      have hL : (a.slots ++ [(⟨0, some x⟩ : Slot α)]).get? h.index =
          some ⟨0, some x⟩ := by
        rw [heq]
        exact list_get?_append_self _ _
      rw [Arena.lookup_eq _ _ _ hL,
        a.lookup_eq_none_oob h (list_get?_ge _ _ (le_of_eq heq.symm))]
      simp [hg0]
    · rw [a.lookup_eq_none_oob h (list_get?_ge _ _ (le_of_lt hgt))]
      refine Arena.lookup_eq_none_oob _ _ (list_get?_ge _ _ ?_)
      simp only [List.length_append, List.length_cons, List.length_nil]
      omega
  | some i =>
    obtain ⟨sl, hsl, hval⟩ := findFreeIdx_spec a.slots i hf
    rw [a.insert_eq_free x i sl hf hsl] at hne ⊢
    by_cases hi : h.index = i
    · have hg : ¬(sl.generation = h.generation) := by
        intro hg
        apply hne
        cases h
        simp_all
      have hset : (a.slots.set i (⟨sl.generation, some x⟩ : Slot α)).get? h.index =
          some ⟨sl.generation, some x⟩ := by
        rw [hi]
        exact list_get?_set_self _ _ _ (list_get?_lt _ _ _ hsl)
      rw [Arena.lookup_eq _ _ _ hset, a.lookup_eq h sl (hi ▸ hsl)]
      simp [hg]
    · simp only [Arena.lookup]
      rw [list_get?_set_ne _ _ _ _ (fun hh => hi hh.symm)]

theorem Handle.staleIn_lookup_none {α : Type} (h : Handle) (a : Arena α)
    (hs : h.staleIn a) : a.lookup h = none := by
  obtain ⟨sl, hsl, hgen⟩ := hs
  rw [a.lookup_eq h sl hsl]
  rw [if_neg (by omega)]

theorem Handle.staleIn_remove_self {α : Type} (h : Handle) (a : Arena α) (x : α)
    (hl : a.lookup h = some x) : h.staleIn (a.remove h) := by
  obtain ⟨sl, hsl, hgen, hval⟩ := a.lookup_spec h x hl
  rw [a.remove_eq_live h x hl]
  exact ⟨⟨h.generation + 1, none⟩,
    list_get?_set_self _ _ _ (list_get?_lt _ _ _ hsl),
    by show h.generation < h.generation + 1; omega⟩

theorem Handle.staleIn_insert {α : Type} (h : Handle) (a : Arena α) (x : α)
    (hs : h.staleIn a) : h.staleIn (a.insert x).1 := by
  obtain ⟨sl, hsl, hgen⟩ := hs
  cases hf : findFreeIdx a.slots with
  | none =>
    rw [a.insert_eq_append x hf]
    exact ⟨sl, by rw [list_get?_append_lt _ _ _ (list_get?_lt _ _ _ hsl)]; exact hsl, hgen⟩
  | some i =>
    obtain ⟨sl2, hsl2, hval2⟩ := findFreeIdx_spec a.slots i hf
    rw [a.insert_eq_free x i sl2 hf hsl2]
    by_cases hi : h.index = i
    · subst hi
      rw [hsl] at hsl2
      cases hsl2
      exact ⟨⟨sl.generation, some x⟩,
        list_get?_set_self _ _ _ (list_get?_lt _ _ _ hsl), hgen⟩
    · exact ⟨sl, by rw [list_get?_set_ne _ _ _ _ (fun hh => hi hh.symm)]; exact hsl, hgen⟩

theorem Handle.staleIn_remove {α : Type} (h h2 : Handle) (a : Arena α)
    (hs : h.staleIn a) : h.staleIn (a.remove h2) := by
  obtain ⟨sl, hsl, hgen⟩ := hs
  cases hl2 : a.lookup h2 with
  | none => rw [a.remove_eq_dead h2 hl2]; exact ⟨sl, hsl, hgen⟩
  | some y =>
    obtain ⟨sl2, hsl2, hgen2, hval2⟩ := a.lookup_spec h2 y hl2
    rw [a.remove_eq_live h2 y hl2]
    by_cases hi : h.index = h2.index
    · rw [hi, hsl2] at hsl
      cases hsl
      exact ⟨⟨h2.generation + 1, none⟩,
        by rw [hi]; exact list_get?_set_self _ _ _ (list_get?_lt _ _ _ hsl2),
        by show h.generation < h2.generation + 1; omega⟩
    · exact ⟨sl, by rw [list_get?_set_ne _ _ _ _ (fun hh => hi hh.symm)]; exact hsl, hgen⟩

theorem Arena.insert_handle_ne_stale {α : Type} (a : Arena α) (x : α) (h : Handle)
    (hs : h.staleIn a) : (a.insert x).2 ≠ h := by
  obtain ⟨sl, hsl, hgen⟩ := hs
  cases hf : findFreeIdx a.slots with
  | none =>
    rw [a.insert_eq_append x hf]
    intro hh
    have hidx : a.slots.length = h.index := congrArg Handle.index hh
    exact absurd (list_get?_lt _ _ _ hsl) (by omega)
  | some i =>
    obtain ⟨sl2, hsl2, hval2⟩ := findFreeIdx_spec a.slots i hf
    rw [a.insert_eq_free x i sl2 hf hsl2]
    intro hh
    have hi : i = h.index := congrArg Handle.index hh
    have hg : sl2.generation = h.generation := congrArg Handle.generation hh
    rw [hi, hsl] at hsl2
    cases hsl2
    omega

theorem Handle.staleIn_applyOps {α : Type} (h : Handle) (a : Arena α)
    (ops : List (ArenaOp α)) (hs : h.staleIn a) :
    h.staleIn (a.applyOps ops).1 ∧ ∀ h2 ∈ (a.applyOps ops).2, h2 ≠ h := by
  induction ops generalizing a with
  | nil => exact ⟨hs, by simp [Arena.applyOps]⟩
  | cons op ops ih =>
    cases op with
    | create x =>
      have hs1 : h.staleIn (a.insert x).1 := h.staleIn_insert a x hs
      obtain ⟨ha, hb⟩ := ih (a.insert x).1 hs1
      refine ⟨by simpa [Arena.applyOps, Arena.applyOp] using ha, ?_⟩
      intro h2 hmem
      simp only [Arena.applyOps, Arena.applyOp, Option.toList_some, List.mem_append,
        List.mem_singleton] at hmem
      rcases hmem with heq | hmem2
      · subst heq; exact a.insert_handle_ne_stale x h hs
      · exact hb h2 hmem2
    | destroy h3 =>
      have hs1 : h.staleIn (a.remove h3) := h.staleIn_remove h3 a hs
      obtain ⟨ha, hb⟩ := ih (a.remove h3) hs1
      refine ⟨by simpa [Arena.applyOps, Arena.applyOp] using ha, ?_⟩
      intro h2 hmem
      simp only [Arena.applyOps, Arena.applyOp] at hmem
      exact hb h2 (by simpa using hmem)

/-! ## Reference-count lemmas -/

theorem arenaSum_insert {α : Type} (a : Arena α) (x : α) (f : α → Nat) :
    arenaSum (a.insert x).1 f = arenaSum a f + f x := by
  cases hf : findFreeIdx a.slots with
  | none =>
    rw [a.insert_eq_append x hf]
    simp [arenaSum, slotContrib]
  | some i =>
    obtain ⟨sl, hsl, hval⟩ := findFreeIdx_spec a.slots i hf
    rw [a.insert_eq_free x i sl hf hsl]
    have hms := list_map_sum_set a.slots i (⟨sl.generation, some x⟩ : Slot α) sl
      (slotContrib f) hsl
    have h1 : slotContrib f sl = 0 := by simp [slotContrib, hval]
    have h2 : slotContrib f (⟨sl.generation, some x⟩ : Slot α) = f x := by simp [slotContrib]
    rw [h1, h2] at hms
    simp only [arenaSum]
    omega

theorem arenaSum_remove {α : Type} (a : Arena α) (h : Handle) (x : α) (f : α → Nat)
    (hl : a.lookup h = some x) :
    arenaSum (a.remove h) f + f x = arenaSum a f := by
  obtain ⟨sl, hsl, hgen, hval⟩ := a.lookup_spec h x hl
  rw [a.remove_eq_live h x hl]
  have hms := list_map_sum_set a.slots h.index (⟨h.generation + 1, none⟩ : Slot α) sl
    (slotContrib f) hsl
  have h1 : slotContrib f sl = f x := by simp [slotContrib, hval]
  have h2 : slotContrib f (⟨h.generation + 1, none⟩ : Slot α) = 0 := by simp [slotContrib]
  rw [h1, h2] at hms
  simp only [arenaSum]
  omega

theorem arenaSum_insert_val {α : Type} (a : Arena α) (x : α) (f : α → Nat) (c : Nat)
    (hc : f x = c) : arenaSum (a.insert x).1 f = arenaSum a f + c := by
  rw [arenaSum_insert, hc]

theorem arenaSum_remove_val {α : Type} (a : Arena α) (h : Handle) (x : α) (f : α → Nat)
    (c : Nat) (hc : f x = c) (hl : a.lookup h = some x) :
    arenaSum (a.remove h) f + c = arenaSum a f := by
  rw [← hc]
  exact arenaSum_remove a h x f hl

/-! ## Claim theorems -/

/-- C1: on the authoritative (server) role, every capability operation left
unimplemented there (message send for every target, get-local-player,
get-input, get-previous-input, camera screen_ray) returns the fixed
Unsupported error for every possible argument value and performs no world
mutation, over every world state type. -/
theorem c1_server_role_ops_uniformly_unsupported (W V I R : Type) (w : W) (t : Target)
    (n : String) (d : List Nat) (cam : Nat) (pos : V) :
    server_message_send t n d w = (Except.error HostErr.unsupported, w) ∧
    server_player_get_local w = (Except.error HostErr.unsupported, w) ∧
    server_input_get I w = ((Except.error HostErr.unsupported : Except HostErr I), w) ∧
    server_input_get_previous I w =
      ((Except.error HostErr.unsupported : Except HostErr I), w) ∧
    server_camera_screen_ray V R cam pos w =
      ((Except.error HostErr.unsupported : Except HostErr R), w) :=
  ⟨rfl, rfl, rfl, rfl, rfl⟩

/-- C6: on the presentational (client) role, a send toward the server with
either delivery guarantee fails with the "no game client" precondition error
and enqueues nothing when no connection is active, while the local-broadcast
and local-directed targets succeed and enqueue exactly one local message
irrespective of the connection resource's state. -/
theorem c6_send_requires_connection_only_for_server_targets (m : Nat) (n : String)
    (d : List Nat) (w : MsgWorld) (hnc : w.gameClient = none) :
    client_message_send m Target.serverReliable n d w =
      (Except.error (HostErr.preconditionMissing "no game client"), w) ∧
    client_message_send m Target.serverUnreliable n d w =
      (Except.error (HostErr.preconditionMissing "no game client"), w) ∧
    (∀ (g : Option Nat) (id : Nat),
      client_message_send m Target.localBroadcast n d { w with gameClient := g } =
        (Except.ok (),
          { w with gameClient := g,
                   localQueue := w.localQueue ++ [⟨m, none, n, d⟩] }) ∧
      client_message_send m (Target.localTo id) n d { w with gameClient := g } =
        (Except.ok (),
          { w with gameClient := g,
                   localQueue := w.localQueue ++ [⟨m, some id, n, d⟩] })) := by
  refine ⟨?_, ?_, fun g id => ⟨rfl, rfl⟩⟩
  · simp [client_message_send, hnc]
  · simp [client_message_send, hnc]

/-- Witness for C6: a concrete module, message and world without an active
connection. -/
theorem c6_send_requires_connection_only_for_server_targets_witness :
    (⟨none, [], [], []⟩ : MsgWorld).gameClient = none ∧
    (client_message_send 7 Target.serverReliable "bonk" [1, 2] ⟨none, [], [], []⟩ =
      (Except.error (HostErr.preconditionMissing "no game client"),
        ⟨none, [], [], []⟩) ∧
    client_message_send 7 Target.serverUnreliable "bonk" [1, 2] ⟨none, [], [], []⟩ =
      (Except.error (HostErr.preconditionMissing "no game client"),
        ⟨none, [], [], []⟩) ∧
    (∀ (g : Option Nat) (id : Nat),
      client_message_send 7 Target.localBroadcast "bonk" [1, 2]
          { (⟨none, [], [], []⟩ : MsgWorld) with gameClient := g } =
        (Except.ok (),
          { (⟨none, [], [], []⟩ : MsgWorld) with
              gameClient := g,
              localQueue := [] ++ [⟨7, none, "bonk", [1, 2]⟩] }) ∧
      client_message_send 7 (Target.localTo id) "bonk" [1, 2]
          { (⟨none, [], [], []⟩ : MsgWorld) with gameClient := g } =
        (Except.ok (),
          { (⟨none, [], [], []⟩ : MsgWorld) with
              gameClient := g,
              localQueue := [] ++ [⟨7, some id, "bonk", [1, 2]⟩] }))) :=
  ⟨rfl, c6_send_requires_connection_only_for_server_targets 7 "bonk" [1, 2]
    ⟨none, [], [], []⟩ rfl⟩

/-- C9: the pixel-format, address-mode and filter-mode enumerations are
closed and exhaustively mapped: for every value of each enum, texture
create2d and sampler create succeed and hand the backend exactly the mapped
values; no enum value reaches an unmapped or panicking branch. -/
theorem c9_enum_maps_closed_and_exhaustive (s : Storage) (fmt : Format)
    (amu amv amw : AddressMode) (magf minf mipf : FilterMode) (wdt hgt : Nat)
    (data : List Nat) :
    (∃ h, (texture_create2d s ⟨wdt, hgt, fmt, data⟩).1 = Except.ok h) ∧
    (texture_create2d s ⟨wdt, hgt, fmt, data⟩).2.gpuTextures =
      s.gpuTextures ++ [(s.nextObj, ⟨wdt, hgt, 1, 1, 1, format_from_wit fmt⟩)] ∧
    (∃ h2, (sampler_create s ⟨amu, amv, amw, magf, minf, mipf⟩).1 = Except.ok h2) ∧
    (sampler_create s ⟨amu, amv, amw, magf, minf, mipf⟩).2.gpuSamplers =
      s.gpuSamplers ++ [(s.nextObj,
        ⟨address_mode_from_wit amu, address_mode_from_wit amv, address_mode_from_wit amw,
          filter_mode_from_wit magf, filter_mode_from_wit minf,
          filter_mode_from_wit mipf⟩)] :=
  ⟨⟨(s.textures.insert s.nextObj).2, rfl⟩, rfl,
    ⟨(s.samplers.insert s.nextObj).2, rfl⟩, rfl⟩

/-- C10: screen_to_world_direction returns exactly what composing
screen_to_clip_space with clip_space_ray returns, value or error, for every
world state, collaborator behavior, camera entity and screen position; both
paths apply the direction negation once. -/
theorem c10_screen_to_world_direction_is_composition (W V2 V3 E : Type)
    (csr : W → Nat → V2 → Except E (Ray V3)) (s2c : W → V2 → V2) (negDir : V3 → V3)
    (w : W) (camera : Nat) (screenPos : V2) :
    host_screen_to_world_direction W V2 V3 E csr s2c negDir w camera screenPos =
      host_clip_space_ray W V2 V3 E csr negDir w camera
        (host_screen_to_clip_space W V2 s2c w screenPos) := rfl

/-- C2 (amended): after destroying a live texture handle, the handle is stale
in the generation-checked storage: under every later operation sequence on the
texture arena its lookup stays `none` and no later create hands out an equal
handle; and an operation that dereferences it, material creation, aborts with
the handle-lookup trap (the infallible `get_texture` panics) rather than
returning a NotFound error value, leaving the storage unchanged. -/
theorem c2_destroyed_handle_never_resolves (s : Storage) (h : Handle) (o : Nat)
    (hlive : s.textures.lookup h = some o) :
    (∀ ops : List (ArenaOp Nat),
      ((texture_destroy s h).2.textures.applyOps ops).1.lookup h = none ∧
      ∀ h2 ∈ ((texture_destroy s h).2.textures.applyOps ops).2, h2 ≠ h) ∧
    (∀ desc : MaterialDescriptor, desc.baseColorMap = h →
      material_create (texture_destroy s h).2 desc =
        (Except.error (HostErr.trap "invalid handle"), (texture_destroy s h).2)) := by
  have hstale : h.staleIn (texture_destroy s h).2.textures :=
    h.staleIn_remove_self s.textures o hlive
  constructor
  · intro ops
    obtain ⟨ha, hb⟩ := h.staleIn_applyOps _ ops hstale
    exact ⟨Handle.staleIn_lookup_none _ _ ha, hb⟩
  · intro desc hbc
    have hnone : (texture_destroy s h).2.textures.lookup desc.baseColorMap = none := by
      rw [hbc]
      exact Handle.staleIn_lookup_none _ _ hstale
    unfold material_create
    rw [hnone]

/-- Storage holding one live texture (object 0 under handle index 0,
generation 0), the input of the C2 witness. -/
def c2OneTexture : Storage :=
  (texture_create2d emptyStorage ⟨1, 1, Format.r8Unorm, [0]⟩).2

/-- Witness for C2: the concrete one-texture storage and its live handle. -/
theorem c2_destroyed_handle_never_resolves_witness :
    c2OneTexture.textures.lookup ⟨0, 0⟩ = some 0 ∧
    ((∀ ops : List (ArenaOp Nat),
      ((texture_destroy c2OneTexture ⟨0, 0⟩).2.textures.applyOps ops).1.lookup ⟨0, 0⟩ =
        none ∧
      ∀ h2 ∈ ((texture_destroy c2OneTexture ⟨0, 0⟩).2.textures.applyOps ops).2,
        h2 ≠ ⟨0, 0⟩) ∧
    (∀ desc : MaterialDescriptor, desc.baseColorMap = ⟨0, 0⟩ →
      material_create (texture_destroy c2OneTexture ⟨0, 0⟩).2 desc =
        (Except.error (HostErr.trap "invalid handle"),
          (texture_destroy c2OneTexture ⟨0, 0⟩).2))) :=
  ⟨rfl, c2_destroyed_handle_never_resolves c2OneTexture ⟨0, 0⟩ 0 rfl⟩

/-- C2 counterexample: create a texture, destroy its handle, then reference
the stale handle as a material dependency. The claim requires the operation to
return a NotFound error; the call instead aborts with the handle-lookup trap
(a panic), so it does not return NotFound. -/
theorem c2_counterexample_stale_reference_is_trap_not_notfound :
    (material_create (texture_destroy (texture_create2d emptyStorage
        ⟨1, 1, Format.r8Unorm, [0]⟩).2 ⟨0, 0⟩).2 ⟨⟨0, 0⟩, ⟨0, 0⟩, ⟨0, 0⟩, ⟨0, 0⟩⟩).1 =
      Except.error (HostErr.trap "invalid handle") ∧
    (material_create (texture_destroy (texture_create2d emptyStorage
        ⟨1, 1, Format.r8Unorm, [0]⟩).2 ⟨0, 0⟩).2 ⟨⟨0, 0⟩, ⟨0, 0⟩, ⟨0, 0⟩, ⟨0, 0⟩⟩).1 ≠
      Except.error HostErr.notFound := by
  refine ⟨rfl, ?_⟩
  intro hcontra
  have h1 : (material_create (texture_destroy (texture_create2d emptyStorage
      ⟨1, 1, Format.r8Unorm, [0]⟩).2 ⟨0, 0⟩).2 ⟨⟨0, 0⟩, ⟨0, 0⟩, ⟨0, 0⟩, ⟨0, 0⟩⟩).1 =
      Except.error (HostErr.trap "invalid handle") := rfl
  rw [h1] at hcontra
  simp at hcontra

/-- C3 (amended): material creation with an invalid or unknown dependency
handle aborts with the handle-lookup trap, a host panic rather than a
returned "handle not found" error value, and allocates nothing: the storage,
its material arena included, is returned unchanged. -/
theorem c3_material_create_bad_dependency_traps_allocates_nothing (s : Storage)
    (desc : MaterialDescriptor)
    (hbad : s.textures.lookup desc.baseColorMap = none ∨
      s.textures.lookup desc.normalMap = none ∨
      s.textures.lookup desc.metallicRoughnessMap = none ∨
      s.samplers.lookup desc.sampler = none) :
    material_create s desc = (Except.error (HostErr.trap "invalid handle"), s) := by
  unfold material_create
  cases hb : s.textures.lookup desc.baseColorMap <;>
    cases hn : s.textures.lookup desc.normalMap <;>
      cases hm : s.textures.lookup desc.metallicRoughnessMap <;>
        cases hsm : s.samplers.lookup desc.sampler <;>
          simp_all

/-- Witness for C3: the empty storage and a descriptor naming unknown
handles. -/
theorem c3_material_create_bad_dependency_traps_allocates_nothing_witness :
    emptyStorage.textures.lookup ⟨0, 0⟩ = none ∧
    material_create emptyStorage ⟨⟨0, 0⟩, ⟨0, 0⟩, ⟨0, 0⟩, ⟨0, 0⟩⟩ =
      (Except.error (HostErr.trap "invalid handle"), emptyStorage) :=
  ⟨rfl, c3_material_create_bad_dependency_traps_allocates_nothing emptyStorage
    ⟨⟨0, 0⟩, ⟨0, 0⟩, ⟨0, 0⟩, ⟨0, 0⟩⟩ (Or.inl rfl)⟩

/-- C3 counterexample: with every dependency handle unknown (empty storage),
material create does not return the "handle not found" error the claim
requires; it aborts with the handle-lookup trap. -/
theorem c3_counterexample_invalid_dependency_is_trap_not_notfound :
    material_create emptyStorage ⟨⟨3, 1⟩, ⟨3, 1⟩, ⟨3, 1⟩, ⟨3, 1⟩⟩ =
      (Except.error (HostErr.trap "invalid handle"), emptyStorage) ∧
    (material_create emptyStorage ⟨⟨3, 1⟩, ⟨3, 1⟩, ⟨3, 1⟩, ⟨3, 1⟩⟩).1 ≠
      Except.error HostErr.notFound := by
  refine ⟨rfl, ?_⟩
  intro hcontra
  have h1 : (material_create emptyStorage ⟨⟨3, 1⟩, ⟨3, 1⟩, ⟨3, 1⟩, ⟨3, 1⟩⟩).1 =
      Except.error (HostErr.trap "invalid handle") := rfl
  rw [h1] at hcontra
  simp at hcontra

/-- C5: mesh create validates the descriptor synchronously through the
builder: a build failure returns that error immediately and allocates
nothing (the storage is returned unchanged, no arena slot inserted), and a
successful build inserts the built mesh and returns a handle that no
previously live mesh handle equals. Proved for every builder behavior,
storage and descriptor. -/
theorem c5_mesh_create_sync_validation_fresh_handle
    (build : MeshBuilderInput → Except HostErr Mesh) (s : Storage)
    (desc : MeshDescriptor) :
    (∀ e, build (meshInputOf desc) = Except.error e →
      mesh_create build s desc = (Except.error e, s)) ∧
    (∀ m, build (meshInputOf desc) = Except.ok m →
      mesh_create build s desc =
        (Except.ok (s.meshes.insert m).2, { s with meshes := (s.meshes.insert m).1 }) ∧
      s.meshes.lookup (s.meshes.insert m).2 = none ∧
      (mesh_create build s desc).2.meshes.lookup (s.meshes.insert m).2 = some m ∧
      ∀ h2 x, s.meshes.lookup h2 = some x → h2 ≠ (s.meshes.insert m).2) := by
  constructor
  · intro e he
    unfold mesh_create
    rw [he]
  · intro m hm
    have hcreate : mesh_create build s desc =
        (Except.ok (s.meshes.insert m).2, { s with meshes := (s.meshes.insert m).1 }) := by
      unfold mesh_create
      rw [hm]
    refine ⟨hcreate, s.meshes.lookup_insert_self_pre m, ?_, ?_⟩
    · rw [hcreate]
      exact s.meshes.lookup_insert_self_post m
    · intro h2 x hx heq
      rw [heq, s.meshes.lookup_insert_self_pre m] at hx
      exact absurd hx (by simp)

/-- Modelled from the spec: `MeshBuilder::build` (ambient_std, not under
src/) validates the descriptor synchronously; malformed vertex/index data
fails immediately. The validity condition is modelled as every index
referring to an existing vertex; the built mesh carries the builder fields. -/
def meshBuildModel (inp : MeshBuilderInput) : Except HostErr Mesh :=
  if inp.indices.all (fun i => decide (i < inp.positions.length)) then
    Except.ok ⟨inp.positions, inp.normals, inp.tangents, inp.texcoords, inp.indices⟩
  else
    Except.error (HostErr.invalidArgument "invalid mesh")

/-- Witness for C5: a malformed descriptor (an index with no vertices) fails
immediately under the modelled builder and allocates nothing. -/
theorem c5_mesh_create_sync_validation_fresh_handle_witness :
    mesh_create meshBuildModel emptyStorage ⟨[], [5]⟩ =
      (Except.error (HostErr.invalidArgument "invalid mesh"), emptyStorage) :=
  (c5_mesh_create_sync_validation_fresh_handle meshBuildModel emptyStorage
    ⟨[], [5]⟩).1 (HostErr.invalidArgument "invalid mesh") rfl

/-- C7: the four audio operations mutate no world state on the synchronous
path, and the tasks they spawn never touch the world directly: executing a
spawned task from any world, for any load outcome, leaves that world
unchanged — every world effect sits in the deferred-callback queue, applied
only through the async_run drain. Proved for every URL resolver behavior. -/
theorem c7_audio_tasks_defer_all_world_effects
    (p : String → Except String String) (url : String) (looping : Bool) (volume : Int)
    (uid : Nat) (w : AudioWorld) :
    (audio_play p url looping volume uid w).2.1 = w ∧
    spawnedWorldUntouchedLoad (audio_play p url looping volume uid w).2.2 ∧
    (audio_stop p url w).2.1 = w ∧
    spawnedWorldUntouched (audio_stop p url w).2.2 ∧
    (audio_set_volume p url volume w).2.1 = w ∧
    spawnedWorldUntouched (audio_set_volume p url volume w).2.2 ∧
    (audio_stop_by_id uid w).2.1 = w ∧
    spawnedWorldUntouched (audio_stop_by_id uid w).2.2 := by
  cases hp : p url with
  | error e =>
    refine ⟨?_, ?_, ?_, ?_, ?_, ?_, ?_, ?_⟩ <;>
      simp [audio_play, audio_stop, audio_set_volume, audio_stop_by_id, hp,
        spawnedWorldUntouched, spawnedWorldUntouchedLoad, runSteps, playFuture,
        stopFuture, setVolumeFuture, stopByIdFuture]
  | ok durl =>
    refine ⟨?_, ?_, ?_, ?_, ?_, ?_, ?_, ?_⟩ <;>
      simp [audio_play, audio_stop, audio_set_volume, audio_stop_by_id, hp,
        spawnedWorldUntouched, spawnedWorldUntouchedLoad, runSteps, playFuture,
        stopFuture, setVolumeFuture, stopByIdFuture]

/-- C8: when the URL parses and resolves, the play call returns success
synchronously and that success only means the operation was accepted: the
synchronous result is the same for every eventual load outcome, and a load
failure surfaces only through the deferred path, as a host log entry, never
in the synchronous return value and never in the audio queue. -/
theorem c8_play_success_is_acceptance_only (p : String → Except String String)
    (url durl : String) (looping : Bool) (volume : Int) (uid : Nat) (w : AudioWorld)
    (hp : p url = Except.ok durl) :
    (∀ o : Except String Nat,
      (play_pipeline p url looping volume uid w o).1 = Except.ok ()) ∧
    (∀ e : String,
      (play_pipeline p url looping volume uid w (Except.error e)).2 =
        { w with log := w.log ++ [e] }) := by
  constructor
  · intro o
    simp [play_pipeline, audio_play, hp, playFuture, runSteps, drainCallbacks]
  · intro e
    simp [play_pipeline, audio_play, hp, playFuture, runSteps, drainCallbacks]

/-- C4: destroying a material removes only the material's own registry
entry: the mesh, texture and sampler arenas are untouched, the dependency
handles still resolve to their objects, and the strong reference counts of
the shared texture and sampler objects drop back to their pre-creation
values. While the material lives, the texture object's count is higher by
the material's reference multiplicity (how many of the three texture slots
resolve to that object, at least one — so the same handle passed in several
slots is covered), the sampler object's count by one. When the texture
registry slot is the last other holder of the object, the count is still 1
(not released) after the material's destroy and reaches 0 (released, exactly
once) only at that last holder's destroy. -/
theorem c4_material_destroy_preserves_shared_subresources (s : Storage)
    (desc : MaterialDescriptor) (o o2 o3 p : Nat)
    (hbc : s.textures.lookup desc.baseColorMap = some o)
    (hnm : s.textures.lookup desc.normalMap = some o2)
    (hmr : s.textures.lookup desc.metallicRoughnessMap = some o3)
    (hsp : s.samplers.lookup desc.sampler = some p) :
    ∃ hm s2,
      material_create s desc = (Except.ok hm, s2) ∧
      s2.textures = s.textures ∧
      s2.samplers = s.samplers ∧
      s2.textureStrongCount o =
        s.textureStrongCount o + texRefsOfMaterial ⟨o, o2, o3, p⟩ o ∧
      1 ≤ texRefsOfMaterial ⟨o, o2, o3, p⟩ o ∧
      s2.samplerStrongCount p = s.samplerStrongCount p + 1 ∧
      (material_destroy s2 hm).2.textures = s.textures ∧
      (material_destroy s2 hm).2.samplers = s.samplers ∧
      (material_destroy s2 hm).2.meshes = s.meshes ∧
      (material_destroy s2 hm).2.materials.lookup hm = none ∧
      (material_destroy s2 hm).2.textures.lookup desc.baseColorMap = some o ∧
      (material_destroy s2 hm).2.samplers.lookup desc.sampler = some p ∧
      (material_destroy s2 hm).2.textureStrongCount o = s.textureStrongCount o ∧
      (material_destroy s2 hm).2.samplerStrongCount p = s.samplerStrongCount p ∧
      (s.textureStrongCount o = 1 →
        (material_destroy s2 hm).2.textureStrongCount o = 1 ∧
        (texture_destroy (material_destroy s2 hm).2
          desc.baseColorMap).2.textureStrongCount o = 0) := by
  refine ⟨(s.materials.insert ⟨o, o2, o3, p⟩).2,
    { s with materials := (s.materials.insert ⟨o, o2, o3, p⟩).1 },
    ?_, rfl, rfl, ?_, ?_, ?_, rfl, rfl, rfl, ?_, hbc, hsp, ?_, ?_, ?_⟩
  · unfold material_create
    rw [hbc, hnm, hmr, hsp]
  · have hins := arenaSum_insert_val s.materials (⟨o, o2, o3, p⟩ : Material)
      (fun m => texRefsOfMaterial m o) (texRefsOfMaterial ⟨o, o2, o3, p⟩ o) rfl
    simp only [Storage.textureStrongCount]
    omega
  · have h1 : texRefsOfMaterial ⟨o, o2, o3, p⟩ o =
        1 + (if o2 = o then 1 else 0) + (if o3 = o then 1 else 0) := by
      simp [texRefsOfMaterial]
    omega
  · have hins := arenaSum_insert_val s.materials (⟨o, o2, o3, p⟩ : Material)
      (fun m => if m.sampler = p then 1 else 0) 1 (by simp)
    simp only [Storage.samplerStrongCount]
    omega
  · exact Handle.staleIn_lookup_none _ _
      (Handle.staleIn_remove_self _ _ (⟨o, o2, o3, p⟩ : Material)
        (s.materials.lookup_insert_self_post ⟨o, o2, o3, p⟩))
  · have hrm := arenaSum_remove_val _ _ _ (fun m => texRefsOfMaterial m o)
      (texRefsOfMaterial ⟨o, o2, o3, p⟩ o) rfl
      (s.materials.lookup_insert_self_post (⟨o, o2, o3, p⟩ : Material))
    have hins := arenaSum_insert_val s.materials (⟨o, o2, o3, p⟩ : Material)
      (fun m => texRefsOfMaterial m o) (texRefsOfMaterial ⟨o, o2, o3, p⟩ o) rfl
    simp only [material_destroy, Storage.textureStrongCount]
    omega
  · have hrm := arenaSum_remove_val _ _ _ (fun m => if m.sampler = p then 1 else 0) 1
      (by simp)
      (s.materials.lookup_insert_self_post (⟨o, o2, o3, p⟩ : Material))
    have hins := arenaSum_insert_val s.materials (⟨o, o2, o3, p⟩ : Material)
      (fun m => if m.sampler = p then 1 else 0) 1 (by simp)
    simp only [material_destroy, Storage.samplerStrongCount]
    omega
  · intro hone
    have hrm := arenaSum_remove_val _ _ _ (fun m => texRefsOfMaterial m o)
      (texRefsOfMaterial ⟨o, o2, o3, p⟩ o) rfl
      (s.materials.lookup_insert_self_post (⟨o, o2, o3, p⟩ : Material))
    have hins := arenaSum_insert_val s.materials (⟨o, o2, o3, p⟩ : Material)
      (fun m => texRefsOfMaterial m o) (texRefsOfMaterial ⟨o, o2, o3, p⟩ o) rfl
    have hrmtex := arenaSum_remove_val s.textures desc.baseColorMap o
      (fun v => if v = o then 1 else 0) 1 (by simp) hbc
    simp only [Storage.textureStrongCount] at hone
    constructor
    · simp only [material_destroy, Storage.textureStrongCount]
      omega
    · simp only [texture_destroy, material_destroy, Storage.textureStrongCount]
      omega

/-- Storage with one texture (object 0) and one sampler (object 1), the
input of the C4 witness. -/
def c4OneTextureOneSampler : Storage :=
  (sampler_create (texture_create2d emptyStorage ⟨1, 1, Format.r8Unorm, [0]⟩).2
    ⟨AddressMode.clampToEdge, AddressMode.clampToEdge, AddressMode.clampToEdge,
      FilterMode.nearest, FilterMode.nearest, FilterMode.nearest⟩).2

/-- Material descriptor of the C4 witness: the same texture handle passed in
all three texture slots, exercising a shared dependency object held with
multiplicity three. -/
def c4DescSameTexture : MaterialDescriptor := ⟨⟨0, 0⟩, ⟨0, 0⟩, ⟨0, 0⟩, ⟨0, 0⟩⟩

/-- Witness for C4 at the concrete one-texture storage, with the texture
handle repeated in every dependency slot. -/
theorem c4_material_destroy_preserves_shared_subresources_witness :
    c4OneTextureOneSampler.textures.lookup c4DescSameTexture.baseColorMap = some 0 ∧
    (∃ hm s2,
      material_create c4OneTextureOneSampler c4DescSameTexture = (Except.ok hm, s2) ∧
      s2.textures = c4OneTextureOneSampler.textures ∧
      s2.samplers = c4OneTextureOneSampler.samplers ∧
      s2.textureStrongCount 0 = c4OneTextureOneSampler.textureStrongCount 0 +
        texRefsOfMaterial ⟨0, 0, 0, 1⟩ 0 ∧
      1 ≤ texRefsOfMaterial ⟨0, 0, 0, 1⟩ 0 ∧
      s2.samplerStrongCount 1 = c4OneTextureOneSampler.samplerStrongCount 1 + 1 ∧
      (material_destroy s2 hm).2.textures = c4OneTextureOneSampler.textures ∧
      (material_destroy s2 hm).2.samplers = c4OneTextureOneSampler.samplers ∧
      (material_destroy s2 hm).2.meshes = c4OneTextureOneSampler.meshes ∧
      (material_destroy s2 hm).2.materials.lookup hm = none ∧
      (material_destroy s2 hm).2.textures.lookup c4DescSameTexture.baseColorMap =
        some 0 ∧
      (material_destroy s2 hm).2.samplers.lookup c4DescSameTexture.sampler = some 1 ∧
      (material_destroy s2 hm).2.textureStrongCount 0 =
        c4OneTextureOneSampler.textureStrongCount 0 ∧
      (material_destroy s2 hm).2.samplerStrongCount 1 =
        c4OneTextureOneSampler.samplerStrongCount 1 ∧
      (c4OneTextureOneSampler.textureStrongCount 0 = 1 →
        (material_destroy s2 hm).2.textureStrongCount 0 = 1 ∧
        (texture_destroy (material_destroy s2 hm).2
          c4DescSameTexture.baseColorMap).2.textureStrongCount 0 = 0)) :=
  ⟨rfl, c4_material_destroy_preserves_shared_subresources c4OneTextureOneSampler
    c4DescSameTexture 0 0 0 1 rfl rfl rfl rfl⟩

/-- URL resolver accepting every string unchanged, used by the C8 witness. -/
def okParse : String → Except String String := fun s => Except.ok s

/-- Witness for C8: a concrete resolvable URL, world and failing load
outcome. -/
theorem c8_play_success_is_acceptance_only_witness :
    okParse "kiwi.ogg" = Except.ok "kiwi.ogg" ∧
    ((∀ o : Except String Nat,
      (play_pipeline okParse "kiwi.ogg" true 1 4 ⟨[], []⟩ o).1 = Except.ok ()) ∧
    (∀ e : String,
      (play_pipeline okParse "kiwi.ogg" true 1 4 ⟨[], []⟩ (Except.error e)).2 =
        { (⟨[], []⟩ : AudioWorld) with log := [] ++ [e] })) :=
  ⟨rfl, c8_play_success_is_acceptance_only okParse "kiwi.ogg" "kiwi.ogg" true 1 4
    ⟨[], []⟩ rfl⟩

end Kiwi
